import Mathlib

/-!
Shallow embedding of the yavm virtual-machine monitor (`src/main.rs`).

The source builds a KVM-backed VM: `setup_memory` allocates one guest memory
region and registers it with the hypervisor, `load_kernel` opens "bzImage" and
invokes the ELF loader, `setup_vcpu` creates vCPU 0 and writes its initial
registers, and `main` sequences these steps and then runs the exit dispatch
loop.

External collaborators (the KVM ioctl layer, the mmap backend, the ELF
loader, the file system) are modelled as oracles: each fallible call is given
its outcome by an oracle field, and every call the program makes is recorded
in an event trace, so that sequencing, short-circuiting and the dispatch
loop's behaviour can be stated and proved over all oracle outcomes.
-/

namespace Yavm

/-- Machine words (`u64` in the source) are modelled as naturals; the source
only ever stores constants and copies values into these fields, so no modular
arithmetic arises. -/
abbrev U64 := Nat

/-- Wrapper for `vm_memory::GuestAddress`. -/
structure GuestAddress where
  val : U64
deriving DecidableEq

/-- General-purpose register block of a vCPU (`kvm_regs`).  Field names follow
the source, including `rflagsv`, the name the source uses for the flags
register. -/
structure kvm_regs where
  rax : U64
  rbx : U64
  rcx : U64
  rdx : U64
  rsi : U64
  rdi : U64
  rsp : U64
  rbp : U64
  r8 : U64
  r9 : U64
  r10 : U64
  r11 : U64
  r12 : U64
  r13 : U64
  r14 : U64
  r15 : U64
  rip : U64
  rflagsv : U64
deriving DecidableEq

/-- Errors the program can surface.  In the source every fallible call's error
is boxed into `Box<dyn std::error::Error>` and propagated with `?`; the box
keeps the underlying error's type, which these tags model. -/
inductive VmmError
  | kvmNewError
  | createVmError
  | allocError
  | setMemRegionError
  | unwrapFailed
  | fileOpenError
  | elfLoadError
  | createVcpuError
  | getRegsError
  | setRegsError
  | runIoctlError (errno : Nat)
deriving DecidableEq

/-- Exit reasons a `vcpu_fd.run()` call can report (`kvm_ioctls::VcpuExit`).
The arms the source names are listed; `InternalError` (KVM's
`KVM_EXIT_INTERNAL_ERROR`) and `Other` stand for the reasons the source's
catch-all `_` arm receives.  Buffers are byte lists. -/
inductive VcpuExit
  | Hlt
  | MmioRead (addr : U64) (data : List Nat)
  | MmioWrite (addr : U64) (data : List Nat)
  | IoIn (port : U64) (data : List Nat)
  | IoOut (port : U64) (data : List Nat)
  | Shutdown
  | InternalError
  | Other (code : Nat)
deriving DecidableEq

/-- Result of one `vcpu_fd.run()` call: either an ioctl-level error or an
exit reason. -/
abbrev RunResult := Except VmmError VcpuExit

/-- Descriptor handed to `set_user_memory_region`
(`kvm_bindings::kvm_userspace_memory_region`), fields in source order. -/
structure kvm_userspace_memory_region where
  slot : U64
  guest_phys_addr : U64
  memory_size : U64
  userspace_addr : U64
  flags : U64
deriving DecidableEq

/-- One mmap-backed guest memory region: guest base address, length in bytes
and the host virtual address of its backing allocation. -/
structure MmapRegion where
  guest_base : U64
  size : Nat
  host_base : U64
deriving DecidableEq

/-- Model of `vm_memory::GuestMemoryMmap`: the list of its regions. -/
structure GuestMemoryMmap where
  regions : List MmapRegion
deriving DecidableEq

/-- Validity check `from_ranges` performs on its input: every length is
positive and the ranges are ascending and disjoint. -/
def ranges_valid : List (U64 × Nat) → Bool
  | [] => true
  | [(_, s)] => decide (0 < s)
  | (a, s) :: (b, t) :: rest =>
      decide (0 < s) && decide (a + s ≤ b) && ranges_valid ((b, t) :: rest)

/-- Model of `GuestMemoryMmap::from_ranges`: host backing addresses come from
the allocation oracle `hostAlloc` (one per range, by position); `alloc_ok`
models the mmap system call failing.  Invalid range lists and failed
allocations produce an error, as in `vm_memory`. -/
def from_ranges (alloc_ok : Bool) (hostAlloc : Nat → U64) (rs : List (U64 × Nat)) :
    Except VmmError GuestMemoryMmap :=
  if alloc_ok = false then .error .allocError
  else if ranges_valid rs then
    .ok ⟨(rs.enum).map fun p => ⟨p.2.1, p.2.2, hostAlloc p.1⟩⟩
  else .error .allocError

/-- Model of `GuestMemoryMmap::get_host_address`: find the region containing
the guest address and translate it to a host address; `none` when no region
contains it. -/
def GuestMemoryMmap.get_host_address (gm : GuestMemoryMmap) (addr : U64) : Option U64 :=
  (gm.regions.find? fun r =>
      decide (r.guest_base ≤ addr) && decide (addr < r.guest_base + r.size)).map
    fun r => r.host_base + (addr - r.guest_base)

/-- Result the ELF loader returns (`linux_loader`'s `KernelLoaderResult`),
reduced to the field the claims are about: the guest address at which the
loaded kernel starts (its entry point).  The source discards this value. -/
structure KernelLoaderResult where
  kernel_load : GuestAddress
deriving DecidableEq

/-- Model of a `VcpuFd`: the register state the hypervisor holds for the
vCPU. -/
structure VcpuFd where
  regs : kvm_regs
deriving DecidableEq

/-- Model of `VcpuFd::get_regs`: read back the stored register state. -/
def VcpuFd.get_regs (v : VcpuFd) : kvm_regs := v.regs

/-- Model of `VcpuFd::set_regs`: replace the stored register state. -/
def VcpuFd.set_regs (_ : VcpuFd) (r : kvm_regs) : VcpuFd := ⟨r⟩

/-- Calls the program makes to its collaborators, recorded in order in the
event trace. -/
inductive Event
  | kvmNew
  | createVm
  | fromRanges (rs : List (U64 × Nat))
  | setUserMemoryRegion (r : kvm_userspace_memory_region)
  | fileOpen (path : String)
  | elfLoad
  | createVcpu (idx : Nat)
  | getRegs
  | setRegs (r : kvm_regs)
  | resume
  | dispatch (e : VcpuExit)
deriving DecidableEq

/-- Oracle for the calls `setup_memory` makes. -/
structure MemOracle where
  from_ranges_ok : Bool
  hostAlloc : Nat → U64
  set_user_memory_region_ok : Bool

/-- Oracle for the calls `load_kernel` makes: whether opening "bzImage"
succeeds, and what `Elf::load` returns. -/
structure LoadOracle where
  file_open_ok : Bool
  elf_load_result : Except Unit KernelLoaderResult

/-- Oracle for the calls `setup_vcpu` makes: whether creating the vCPU
succeeds, the register state `get_regs` reports, and whether the two register
ioctls succeed. -/
structure VcpuOracle where
  create_vcpu_ok : Bool
  initial_regs : kvm_regs
  get_regs_ok : Bool
  set_regs_ok : Bool

/-- Oracle for a whole run of `main`: one field per fallible external call,
plus the scripted sequence of results the resume calls return. -/
structure World where
  kvm_new_ok : Bool
  create_vm_ok : Bool
  from_ranges_ok : Bool
  hostAlloc : Nat → U64
  set_user_memory_region_ok : Bool
  file_open_ok : Bool
  elf_load_result : Except Unit KernelLoaderResult
  create_vcpu_ok : Bool
  initial_regs : kvm_regs
  get_regs_ok : Bool
  set_regs_ok : Bool
  script : List RunResult

/-- Constant `ZEROPG_START` from the source. -/
def ZEROPG_START : U64 := 0x7000

/-- Constant `mem_size` from `setup_memory`: 0x100000 bytes (1 MB). -/
def mem_size : Nat := 0x100000

/-- Embedding of `setup_memory`: build a `GuestMemoryMmap` with the single
range `(GuestAddress(0), mem_size)`, build the `kvm_userspace_memory_region`
descriptor (slot 0, guest physical address 0, size `mem_size`, host address
the translation of guest address 0) and install it with
`set_user_memory_region`.  The `.unwrap()` on `get_host_address` is modelled
as the `unwrapFailed` error. -/
def setup_memory (o : MemOracle) : List Event × Except VmmError GuestMemoryMmap :=
  let guest_addr : GuestAddress := ⟨0⟩
  match from_ranges o.from_ranges_ok o.hostAlloc [(guest_addr.val, mem_size)] with
  | .error e => ([.fromRanges [(guest_addr.val, mem_size)]], .error e)
  | .ok guest_memory =>
    match guest_memory.get_host_address guest_addr.val with
    | none => ([.fromRanges [(guest_addr.val, mem_size)]], .error .unwrapFailed)
    | some host =>
      let user_memory_region : kvm_userspace_memory_region :=
        ⟨0, guest_addr.val, mem_size, host, 0⟩
      if o.set_user_memory_region_ok then
        ([.fromRanges [(guest_addr.val, mem_size)],
          .setUserMemoryRegion user_memory_region], .ok guest_memory)
      else
        ([.fromRanges [(guest_addr.val, mem_size)],
          .setUserMemoryRegion user_memory_region], .error .setMemRegionError)

/-- Embedding of `load_kernel`: open "bzImage", call `Elf::load` with the
guest memory, the load-address hint and `highmem_start_address = None`, and
discard the loader's `KernelLoaderResult`, returning `()` on success exactly
as the source's `Ok(())` does. -/
def load_kernel (o : LoadOracle) (_guest_mem : GuestMemoryMmap)
    (_kernel_offset : Option GuestAddress) : List Event × Except VmmError Unit :=
  let kernel_path := "bzImage"
  if o.file_open_ok = false then ([.fileOpen kernel_path], .error .fileOpenError)
  else
    match o.elf_load_result with
    | .error _ => ([.fileOpen kernel_path, .elfLoad], .error .elfLoadError)
    | .ok _ => ([.fileOpen kernel_path, .elfLoad], .ok ())

/-- Register update `setup_vcpu` performs on the state read by `get_regs`:
`rip` is set to the kernel offset, `rflagsv` to the fixed constant 2, and
`rsi` to `ZEROPG_START`; every other field is left as read. -/
def setup_vcpu_regs (regs : kvm_regs) (kernel_offset : GuestAddress) : kvm_regs :=
  { regs with rip := kernel_offset.val, rflagsv := 0x2, rsi := ZEROPG_START }

/-- Embedding of `setup_vcpu`: create vCPU 0, read its registers, apply
`setup_vcpu_regs` and write the result back with `set_regs`, returning the
vCPU handle. -/
def setup_vcpu (o : VcpuOracle) (kernel_offset : GuestAddress) :
    List Event × Except VmmError VcpuFd :=
  let _vcpu_count : Nat := 1
  if o.create_vcpu_ok = false then ([.createVcpu 0], .error .createVcpuError)
  else
    let vcpu_fd : VcpuFd := ⟨o.initial_regs⟩
    if o.get_regs_ok = false then ([.createVcpu 0, .getRegs], .error .getRegsError)
    else
      let regs := vcpu_fd.get_regs
      let written := setup_vcpu_regs regs kernel_offset
      if o.set_regs_ok = false then
        ([.createVcpu 0, .getRegs, .setRegs written], .error .setRegsError)
      else
        ([.createVcpu 0, .getRegs, .setRegs written], .ok (vcpu_fd.set_regs written))

/-- Body of the source's `MmioRead` match arm.  The arm is empty (a comment
only), so the read buffer is returned to the guest unchanged. -/
def handle_mmio_read (_addr : U64) (data : List Nat) : List Nat := data

/-- Body of the source's `IoIn` match arm.  The arm is empty, so the port
input buffer is returned to the guest unchanged. -/
def handle_io_in (_port : U64) (data : List Nat) : List Nat := data

/-- Outcome of running the dispatch loop against a finite script of resume
results: `terminated` models the `break` arms, `failed` models the `?` on a
resume error, and `running` means the script was exhausted with the loop
still going. -/
inductive LoopOutcome
  | terminated
  | failed (e : VmmError)
  | running
deriving DecidableEq

/-- Embedding of the dispatch loop in `main`: each iteration issues a resume
(`vcpu_fd.run()?`), propagates an ioctl error, and otherwise dispatches on
the exit reason — `Hlt` and `Shutdown` break; the MMIO and port arms run
their (empty) bodies and continue; every other reason hits the `_` arm and
continues. -/
def run_loop : List RunResult → List Event × LoopOutcome
  | [] => ([], .running)
  | .error e :: _ => ([.resume], .failed e)
  | .ok ex :: rest =>
    match ex with
    | .Hlt => ([.resume, .dispatch .Hlt], .terminated)
    | .MmioRead addr data =>
        (.resume :: .dispatch (.MmioRead addr (handle_mmio_read addr data)) ::
          (run_loop rest).1, (run_loop rest).2)
    | .MmioWrite addr data =>
        (.resume :: .dispatch (.MmioWrite addr data) :: (run_loop rest).1,
         (run_loop rest).2)
    | .IoIn port data =>
        (.resume :: .dispatch (.IoIn port (handle_io_in port data)) ::
          (run_loop rest).1, (run_loop rest).2)
    | .IoOut port data =>
        (.resume :: .dispatch (.IoOut port data) :: (run_loop rest).1,
         (run_loop rest).2)
    | .Shutdown => ([.resume, .dispatch .Shutdown], .terminated)
    | .InternalError =>
        (.resume :: .dispatch .InternalError :: (run_loop rest).1, (run_loop rest).2)
    | .Other code =>
        (.resume :: .dispatch (.Other code) :: (run_loop rest).1, (run_loop rest).2)

/-- Outcome of a run of `main`: normal return, a propagated error, or the
dispatch loop still running when the script ended. -/
inductive MainOutcome
  | ok
  | err (e : VmmError)
  | running
deriving DecidableEq

/-- Embedding of `main`: create the KVM handle, create the VM, set up and
register memory, load the kernel at the hard-coded offset `GuestAddress(0)`,
initialize the vCPU with that same offset, then enter the dispatch loop.
Each `?` short-circuits with the propagated error. -/
def main (w : World) : List Event × MainOutcome :=
  if w.kvm_new_ok = false then ([.kvmNew], .err .kvmNewError)
  else if w.create_vm_ok = false then ([.kvmNew, .createVm], .err .createVmError)
  else
    match setup_memory ⟨w.from_ranges_ok, w.hostAlloc, w.set_user_memory_region_ok⟩ with
    | (evs1, .error e) => ([.kvmNew, .createVm] ++ evs1, .err e)
    | (evs1, .ok guest_mem) =>
      let kernel_offset : GuestAddress := ⟨0⟩
      match load_kernel ⟨w.file_open_ok, w.elf_load_result⟩ guest_mem (some kernel_offset) with
      | (evs2, .error e) => ([.kvmNew, .createVm] ++ evs1 ++ evs2, .err e)
      | (evs2, .ok _) =>
        match setup_vcpu ⟨w.create_vcpu_ok, w.initial_regs, w.get_regs_ok, w.set_regs_ok⟩
            kernel_offset with
        | (evs3, .error e) => ([.kvmNew, .createVm] ++ evs1 ++ evs2 ++ evs3, .err e)
        | (evs3, .ok _vcpu_fd) =>
          let r := run_loop w.script
          ([.kvmNew, .createVm] ++ evs1 ++ evs2 ++ evs3 ++ r.1,
           match r.2 with
           | .terminated => .ok
           | .failed e => .err e
           | .running => .running)

/-- Number of resume calls recorded in a trace. -/
def resume_count (evs : List Event) : Nat :=
  evs.countP fun e => match e with | .resume => true | _ => false

/-- Whether a scripted resume result stops the loop: an ioctl error, or a
`Hlt` or `Shutdown` exit. -/
def deciding : RunResult → Bool
  | .error _ => true
  | .ok .Hlt => true
  | .ok .Shutdown => true
  | _ => false

/-- Exit reason as recorded in the dispatch event, after the (empty) handler
bodies have run on the read buffers. -/
def handled : VcpuExit → VcpuExit
  | .MmioRead addr data => .MmioRead addr (handle_mmio_read addr data)
  | .IoIn port data => .IoIn port (handle_io_in port data)
  | ex => ex

/-- Events one loop iteration records for a given scripted result. -/
def stepEvents : RunResult → List Event
  | .error _ => [.resume]
  | .ok ex => [.resume, .dispatch (handled ex)]

/-- Events the loop records while consuming a script prefix. -/
def stepTrace (l : List RunResult) : List Event := l.flatMap stepEvents

/-- Descriptors passed to `set_user_memory_region` in a trace. -/
def registered_regions (evs : List Event) : List kvm_userspace_memory_region :=
  evs.filterMap fun e => match e with | .setUserMemoryRegion r => some r | _ => none

/-- Whether every construction step of a world succeeds. -/
def construction_ok (w : World) : Bool :=
  w.kvm_new_ok && w.create_vm_ok && w.from_ranges_ok && w.set_user_memory_region_ok &&
    w.file_open_ok && (match w.elf_load_result with | .ok _ => true | .error _ => false) &&
    w.create_vcpu_ok && w.get_regs_ok && w.set_regs_ok

/-- Whether an error tag belongs to VM construction (as opposed to the run
loop's resume errors). -/
def VmmError.construction_stage : VmmError → Bool
  | .runIoctlError _ => false
  | _ => true

/-- All-zero register block, used as a concrete initial state. -/
def zeroRegs : kvm_regs := ⟨0, 0, 0, 0, 0, 0, 0, 0, 0, 0, 0, 0, 0, 0, 0, 0, 0, 0⟩

/-- Concrete world in which every external call succeeds, the loader reports
entry address 0x123456, and the guest halts on its first resume. -/
def w0 : World :=
  { kvm_new_ok := true
    create_vm_ok := true
    from_ranges_ok := true
    hostAlloc := fun _ => 0x8000000
    set_user_memory_region_ok := true
    file_open_ok := true
    elf_load_result := .ok ⟨⟨0x123456⟩⟩
    create_vcpu_ok := true
    initial_regs := zeroRegs
    get_regs_ok := true
    set_regs_ok := true
    script := [.ok .Hlt] }

/-- Guest memory `setup_memory` builds in world `w0`. -/
def mem0 : GuestMemoryMmap := ⟨[⟨0, mem_size, 0x8000000⟩]⟩

/-- Concrete world whose ELF load fails; everything before it succeeds. -/
def wElfFail : World :=
  { kvm_new_ok := true
    create_vm_ok := true
    from_ranges_ok := true
    hostAlloc := fun _ => 0x8000000
    set_user_memory_region_ok := true
    file_open_ok := true
    elf_load_result := .error ()
    create_vcpu_ok := true
    initial_regs := zeroRegs
    get_regs_ok := true
    set_regs_ok := true
    script := [.ok .Hlt] }

/-- Concrete vCPU oracle: all calls succeed, registers read back all zero. -/
def vcpuOracle0 : VcpuOracle := ⟨true, zeroRegs, true, true⟩

/-- Concrete memory oracle: allocation and registration succeed. -/
def memOracle0 : MemOracle := ⟨true, fun _ => 0x8000000, true⟩

/-- One loop iteration on a non-stopping scripted result records its two
events and continues with the rest of the script. -/
theorem run_loop_cons_ndec (x : RunResult) (hx : deciding x = false)
    (rest : List RunResult) :
    run_loop (x :: rest) = (stepEvents x ++ (run_loop rest).1, (run_loop rest).2) := by
  cases x with
  | error e => simp [deciding] at hx
  | ok ex => cases ex <;> first | rfl | simp [deciding] at hx

/-- The loop consumes a non-stopping prefix of the script, recording its step
events, and then behaves as on the remainder. -/
theorem run_loop_append (p : List RunResult) (hp : ∀ x ∈ p, deciding x = false)
    (rest : List RunResult) :
    run_loop (p ++ rest) = (stepTrace p ++ (run_loop rest).1, (run_loop rest).2) := by
  induction p with
  | nil => simp [stepTrace]
  | cons x xs ih =>
    have hx := hp x (List.mem_cons_self x xs)
    have hxs : ∀ y ∈ xs, deciding y = false := fun y hy => hp y (List.mem_cons_of_mem x hy)
    rw [List.cons_append, run_loop_cons_ndec x hx (xs ++ rest), ih hxs]
    simp [stepTrace, List.append_assoc]

/-- Counting resume events distributes over trace concatenation. -/
theorem resume_count_append (a b : List Event) :
    resume_count (a ++ b) = resume_count a + resume_count b := by
  simp [resume_count, List.countP_append]

/-- Each consumed script element records exactly one resume call. -/
theorem resume_count_stepTrace (p : List RunResult) :
    resume_count (stepTrace p) = p.length := by
  induction p with
  | nil => rfl
  | cons x xs ih =>
    have hx : resume_count (stepEvents x) = 1 := by
      cases x with
      | error e => rfl
      | ok ex => cases ex <;> rfl
    have hcons : stepTrace (x :: xs) = stepEvents x ++ stepTrace xs := rfl
    rw [hcons, resume_count_append, hx, ih, List.length_cons]
    omega

/-- A normally terminated run decomposes as a non-stopping prefix followed by
a `Hlt` or `Shutdown` exit, and its trace ends at the dispatch of that exit. -/
theorem run_loop_terminated (s : List RunResult)
    (h : (run_loop s).2 = .terminated) :
    ∃ p r q, s = p ++ .ok r :: q ∧ (r = VcpuExit.Hlt ∨ r = VcpuExit.Shutdown) ∧
      (∀ x ∈ p, deciding x = false) ∧
      (run_loop s).1 = stepTrace p ++ [.resume, .dispatch r] := by
  induction s with
  | nil => simp [run_loop] at h
  | cons x xs ih =>
    by_cases hx : deciding x = true
    · cases x with
      | error e => simp [run_loop] at h
      | ok ex =>
        cases ex with
        | Hlt => exact ⟨[], .Hlt, xs, rfl, Or.inl rfl, by simp, rfl⟩
        | Shutdown => exact ⟨[], .Shutdown, xs, rfl, Or.inr rfl, by simp, rfl⟩
        | MmioRead addr data => simp [deciding] at hx
        | MmioWrite addr data => simp [deciding] at hx
        | IoIn port data => simp [deciding] at hx
        | IoOut port data => simp [deciding] at hx
        | InternalError => simp [deciding] at hx
        | Other code => simp [deciding] at hx
    · have hx' : deciding x = false := by simpa using hx
      have h2 := run_loop_cons_ndec x hx' xs
      have h' : (run_loop xs).2 = .terminated := by rw [h2] at h; exact h
      obtain ⟨p, r, q, hs, hr, hp, ht⟩ := ih h'
      refine ⟨x :: p, r, q, by rw [hs]; rfl, hr, ?_, ?_⟩
      · intro y hy
        rcases List.mem_cons.mp hy with h1 | h2'
        · rw [h1]; exact hx'
        · exact hp y h2'
      · rw [h2]
        dsimp only
        rw [ht, show stepTrace (x :: p) = stepEvents x ++ stepTrace p from rfl,
          List.append_assoc]

/-- Claim C1: in the exit dispatch loop, a `Hlt` or `Shutdown` exit reason
terminates the loop, these are the only exit reasons producing normal
termination, and no resume call is issued after the terminating exit: the
trace ends at the dispatch of that exit and holds exactly one resume per
consumed script element. -/
theorem halt_shutdown_sole_normal_termination :
    (∀ p r q, (∀ x ∈ p, deciding x = false) →
      (r = VcpuExit.Hlt ∨ r = VcpuExit.Shutdown) →
      run_loop (p ++ .ok r :: q) =
        (stepTrace p ++ [.resume, .dispatch r], .terminated)) ∧
    (∀ s, (run_loop s).2 = .terminated →
      ∃ p r q, s = p ++ .ok r :: q ∧ (r = VcpuExit.Hlt ∨ r = VcpuExit.Shutdown) ∧
        (∀ x ∈ p, deciding x = false) ∧
        (run_loop s).1 = stepTrace p ++ [.resume, .dispatch r] ∧
        resume_count (run_loop s).1 = p.length + 1) := by
  constructor
  · intro p r q hp hr
    rw [run_loop_append p hp (.ok r :: q)]
    rcases hr with h | h <;> rw [h] <;> rfl
  · intro s hs
    obtain ⟨p, r, q, h1, h2, h3, h4⟩ := run_loop_terminated s hs
    refine ⟨p, r, q, h1, h2, h3, h4, ?_⟩
    rw [h4, resume_count_append, resume_count_stepTrace]
    rfl

/-- Witness for C1 at the scripted sequence `[MmioRead, IoOut, Hlt]`: the
loop handles the MMIO read, handles the port write, and terminates at the
`Hlt`, issuing exactly three resume calls and none after termination. -/
theorem halt_shutdown_sole_normal_termination_witness :
    run_loop [.ok (.MmioRead 0x1000 [0, 0]), .ok (.IoOut 0x3f8 [65]), .ok .Hlt] =
      (stepTrace [.ok (.MmioRead 0x1000 [0, 0]), .ok (.IoOut 0x3f8 [65])] ++
        [.resume, .dispatch .Hlt], .terminated) := by
  have h := halt_shutdown_sole_normal_termination.1
    [.ok (.MmioRead 0x1000 [0, 0]), .ok (.IoOut 0x3f8 [65])] .Hlt []
    (by decide) (Or.inl rfl)
  simpa using h

/-- When a construction step fails, `main` short-circuits: it surfaces the
tagged error of the failing step and never reaches the dispatch loop, so no
resume call appears in its trace. -/
theorem main_construction_fail (w : World) (h : construction_ok w = false) :
    (∃ e, (main w).2 = .err e ∧ e.construction_stage = true) ∧
      Event.resume ∉ (main w).1 := by
  obtain ⟨k, cv, fr, ha, smr, fo, el, cvc, ir, gr, sr, sc⟩ := w
  cases k with
  | false =>
    refine ⟨⟨.kvmNewError, rfl, rfl⟩, ?_⟩
    show Event.resume ∉ [Event.kvmNew]
    simp
  | true =>
    cases cv with
    | false =>
      refine ⟨⟨.createVmError, rfl, rfl⟩, ?_⟩
      show Event.resume ∉ [Event.kvmNew, Event.createVm]
      simp
    | true =>
      cases fr with
      | false =>
        refine ⟨⟨.allocError, rfl, rfl⟩, ?_⟩
        show Event.resume ∉ [Event.kvmNew, Event.createVm, Event.fromRanges [(0, mem_size)]]
        simp
      | true =>
        cases smr with
        | false =>
          refine ⟨⟨.setMemRegionError, rfl, rfl⟩, ?_⟩
          show Event.resume ∉ [Event.kvmNew, Event.createVm,
            Event.fromRanges [(0, mem_size)],
            Event.setUserMemoryRegion ⟨0, 0, mem_size, ha 0, 0⟩]
          simp
        | true =>
          cases fo with
          | false =>
            refine ⟨⟨.fileOpenError, rfl, rfl⟩, ?_⟩
            show Event.resume ∉ [Event.kvmNew, Event.createVm,
              Event.fromRanges [(0, mem_size)],
              Event.setUserMemoryRegion ⟨0, 0, mem_size, ha 0, 0⟩,
              Event.fileOpen "bzImage"]
            simp
          | true =>
            cases el with
            | error u =>
              refine ⟨⟨.elfLoadError, rfl, rfl⟩, ?_⟩
              show Event.resume ∉ [Event.kvmNew, Event.createVm,
                Event.fromRanges [(0, mem_size)],
                Event.setUserMemoryRegion ⟨0, 0, mem_size, ha 0, 0⟩,
                Event.fileOpen "bzImage", Event.elfLoad]
              simp
            | ok res =>
              cases cvc with
              | false =>
                refine ⟨⟨.createVcpuError, rfl, rfl⟩, ?_⟩
                show Event.resume ∉ [Event.kvmNew, Event.createVm,
                  Event.fromRanges [(0, mem_size)],
                  Event.setUserMemoryRegion ⟨0, 0, mem_size, ha 0, 0⟩,
                  Event.fileOpen "bzImage", Event.elfLoad, Event.createVcpu 0]
                simp
              | true =>
                cases gr with
                | false =>
                  refine ⟨⟨.getRegsError, rfl, rfl⟩, ?_⟩
                  show Event.resume ∉ [Event.kvmNew, Event.createVm,
                    Event.fromRanges [(0, mem_size)],
                    Event.setUserMemoryRegion ⟨0, 0, mem_size, ha 0, 0⟩,
                    Event.fileOpen "bzImage", Event.elfLoad, Event.createVcpu 0,
                    Event.getRegs]
                  simp
                | true =>
                  cases sr with
                  | false =>
                    refine ⟨⟨.setRegsError, rfl, rfl⟩, ?_⟩
                    show Event.resume ∉ [Event.kvmNew, Event.createVm,
                      Event.fromRanges [(0, mem_size)],
                      Event.setUserMemoryRegion ⟨0, 0, mem_size, ha 0, 0⟩,
                      Event.fileOpen "bzImage", Event.elfLoad, Event.createVcpu 0,
                      Event.getRegs, Event.setRegs (setup_vcpu_regs ir ⟨0⟩)]
                    simp
                  | true => simp [construction_ok] at h

/-- When every construction step succeeds, the trace of `main` is the fixed
construction prefix — KVM handle, VM handle, memory allocation, memory
registration, kernel file open, ELF load, vCPU creation, register read,
register write — followed by the dispatch loop's trace, and the outcome is
the loop's outcome. -/
theorem main_all_ok (w : World) (h : construction_ok w = true) :
    main w =
      ([.kvmNew, .createVm, .fromRanges [(0, mem_size)],
        .setUserMemoryRegion ⟨0, 0, mem_size, w.hostAlloc 0, 0⟩,
        .fileOpen "bzImage", .elfLoad, .createVcpu 0, .getRegs,
        .setRegs (setup_vcpu_regs w.initial_regs ⟨0⟩)] ++ (run_loop w.script).1,
       match (run_loop w.script).2 with
       | .terminated => .ok
       | .failed e => .err e
       | .running => .running) := by
  obtain ⟨k, cv, fr, ha, smr, fo, el, cvc, ir, gr, sr, sc⟩ := w
  cases k with
  | false => simp [construction_ok] at h
  | true =>
    cases cv with
    | false => simp [construction_ok] at h
    | true =>
      cases fr with
      | false => simp [construction_ok] at h
      | true =>
        cases smr with
        | false => simp [construction_ok] at h
        | true =>
          cases fo with
          | false => simp [construction_ok] at h
          | true =>
            cases el with
            | error u => simp [construction_ok] at h
            | ok res =>
              cases cvc with
              | false => simp [construction_ok] at h
              | true =>
                cases gr with
                | false => simp [construction_ok] at h
                | true =>
                  cases sr with
                  | false => simp [construction_ok] at h
                  | true => rfl

/-- Claim C3: in every execution whose trace contains a resume call, memory
allocation and hypervisor registration happen first, then the kernel loader
runs, then the vCPU registers are initialized, and only after all of these
does any resume call occur: the trace starts with the full construction
prefix, which contains no resume event. -/
theorem construction_ordered_before_resume (w : World)
    (h : Event.resume ∈ (main w).1) :
    ∃ region regs rest,
      (main w).1 =
        [Event.kvmNew, Event.createVm, Event.fromRanges [(0, mem_size)],
          Event.setUserMemoryRegion region, Event.fileOpen "bzImage", Event.elfLoad,
          Event.createVcpu 0, Event.getRegs, Event.setRegs regs] ++ rest ∧
      Event.resume ∉
        [Event.kvmNew, Event.createVm, Event.fromRanges [(0, mem_size)],
          Event.setUserMemoryRegion region, Event.fileOpen "bzImage", Event.elfLoad,
          Event.createVcpu 0, Event.getRegs, Event.setRegs regs] := by
  cases hco : construction_ok w with
  | false => exact absurd h (main_construction_fail w hco).2
  | true =>
    refine ⟨⟨0, 0, mem_size, w.hostAlloc 0, 0⟩, setup_vcpu_regs w.initial_regs ⟨0⟩,
      (run_loop w.script).1, ?_, by simp⟩
    rw [main_all_ok w hco]

/-- Witness for C3 at the concrete all-success world `w0`. -/
theorem construction_ordered_before_resume_witness :
    ∃ region regs rest,
      (main w0).1 =
        [Event.kvmNew, Event.createVm, Event.fromRanges [(0, mem_size)],
          Event.setUserMemoryRegion region, Event.fileOpen "bzImage", Event.elfLoad,
          Event.createVcpu 0, Event.getRegs, Event.setRegs regs] ++ rest ∧
      Event.resume ∉
        [Event.kvmNew, Event.createVm, Event.fromRanges [(0, mem_size)],
          Event.setUserMemoryRegion region, Event.fileOpen "bzImage", Event.elfLoad,
          Event.createVcpu 0, Event.getRegs, Event.setRegs regs] :=
  construction_ordered_before_resume w0 (by decide)

/-- Claim C4: if any construction step fails, `main` aborts at that step,
surfaces a single tagged error, and no resume call is ever issued, so no
vCPU runs and no partial VM is left running on that path. -/
theorem construction_failure_aborts (w : World)
    (h : construction_ok w = false) :
    ∃ e, (main w).2 = .err e ∧ e.construction_stage = true ∧
      Event.resume ∉ (main w).1 := by
  obtain ⟨⟨e, h1, h2⟩, h3⟩ := main_construction_fail w h
  exact ⟨e, h1, h2, h3⟩

/-- Witness for C4 at the concrete world whose ELF load fails. -/
theorem construction_failure_aborts_witness :
    ∃ e, (main wElfFail).2 = .err e ∧ e.construction_stage = true ∧
      Event.resume ∉ (main wElfFail).1 :=
  construction_failure_aborts wElfFail (by decide)

/-- Claim C2: when the vCPU calls succeed, `setup_vcpu` produces a vCPU whose
stored register state has its instruction pointer equal to the entry point's
address, so reading the registers back after initialization returns the value
that was set. -/
theorem vcpu_rip_roundtrip (o : VcpuOracle) (entry : GuestAddress)
    (hc : o.create_vcpu_ok = true) (hg : o.get_regs_ok = true)
    (hs : o.set_regs_ok = true) :
    ∃ evs v, setup_vcpu o entry = (evs, .ok v) ∧ v.get_regs.rip = entry.val := by
  obtain ⟨c, ir, g, s⟩ := o
  cases c with
  | false => exact absurd hc (by simp)
  | true =>
    cases g with
    | false => exact absurd hg (by simp)
    | true =>
      cases s with
      | false => exact absurd hs (by simp)
      | true => exact ⟨_, _, rfl, rfl⟩

/-- Witness for C2 at a concrete oracle and entry point 0x123456. -/
theorem vcpu_rip_roundtrip_witness :
    ∃ evs v, setup_vcpu vcpuOracle0 ⟨0x123456⟩ = (evs, .ok v) ∧
      v.get_regs.rip = 0x123456 :=
  vcpu_rip_roundtrip vcpuOracle0 ⟨0x123456⟩ rfl rfl rfl

/-- Claim C10: `setup_vcpu` writes back a register state that differs from
the state read by `get_regs` only in the instruction pointer, the flags
register and the boot-parameter argument register `rsi`; the other fifteen
general-purpose registers are written back exactly as read. -/
theorem setup_vcpu_frame_effect (o : VcpuOracle) (off : GuestAddress)
    (hc : o.create_vcpu_ok = true) (hg : o.get_regs_ok = true)
    (hs : o.set_regs_ok = true) :
    ∃ evs v, setup_vcpu o off = (evs, .ok v) ∧
      v.regs.rax = o.initial_regs.rax ∧ v.regs.rbx = o.initial_regs.rbx ∧
      v.regs.rcx = o.initial_regs.rcx ∧ v.regs.rdx = o.initial_regs.rdx ∧
      v.regs.rdi = o.initial_regs.rdi ∧ v.regs.rsp = o.initial_regs.rsp ∧
      v.regs.rbp = o.initial_regs.rbp ∧ v.regs.r8 = o.initial_regs.r8 ∧
      v.regs.r9 = o.initial_regs.r9 ∧ v.regs.r10 = o.initial_regs.r10 ∧
      v.regs.r11 = o.initial_regs.r11 ∧ v.regs.r12 = o.initial_regs.r12 ∧
      v.regs.r13 = o.initial_regs.r13 ∧ v.regs.r14 = o.initial_regs.r14 ∧
      v.regs.r15 = o.initial_regs.r15 ∧
      v.regs.rip = off.val ∧ v.regs.rflagsv = 0x2 ∧ v.regs.rsi = ZEROPG_START := by
  obtain ⟨c, ir, g, s⟩ := o
  cases c with
  | false => exact absurd hc (by simp)
  | true =>
    cases g with
    | false => exact absurd hg (by simp)
    | true =>
      cases s with
      | false => exact absurd hs (by simp)
      | true =>
        exact ⟨_, _, rfl, rfl, rfl, rfl, rfl, rfl, rfl, rfl, rfl, rfl, rfl, rfl,
          rfl, rfl, rfl, rfl, rfl, rfl, rfl⟩

/-- Witness for C10 at a concrete oracle and entry point 5. -/
theorem setup_vcpu_frame_effect_witness :
    ∃ evs v, setup_vcpu vcpuOracle0 ⟨5⟩ = (evs, .ok v) ∧
      v.regs.rax = vcpuOracle0.initial_regs.rax ∧
      v.regs.rbx = vcpuOracle0.initial_regs.rbx ∧
      v.regs.rcx = vcpuOracle0.initial_regs.rcx ∧
      v.regs.rdx = vcpuOracle0.initial_regs.rdx ∧
      v.regs.rdi = vcpuOracle0.initial_regs.rdi ∧
      v.regs.rsp = vcpuOracle0.initial_regs.rsp ∧
      v.regs.rbp = vcpuOracle0.initial_regs.rbp ∧
      v.regs.r8 = vcpuOracle0.initial_regs.r8 ∧
      v.regs.r9 = vcpuOracle0.initial_regs.r9 ∧
      v.regs.r10 = vcpuOracle0.initial_regs.r10 ∧
      v.regs.r11 = vcpuOracle0.initial_regs.r11 ∧
      v.regs.r12 = vcpuOracle0.initial_regs.r12 ∧
      v.regs.r13 = vcpuOracle0.initial_regs.r13 ∧
      v.regs.r14 = vcpuOracle0.initial_regs.r14 ∧
      v.regs.r15 = vcpuOracle0.initial_regs.r15 ∧
      v.regs.rip = 5 ∧ v.regs.rflagsv = 0x2 ∧ v.regs.rsi = ZEROPG_START :=
  setup_vcpu_frame_effect vcpuOracle0 ⟨5⟩ rfl rfl rfl

/-- Claim C9: when allocation and registration succeed, every descriptor
`setup_memory` installs via `set_user_memory_region` has a (guest physical
address, length) pair matching a range present in the `GuestMemoryMmap` it
was built from, its host address is that memory's translation of the range's
guest start address, and the installed slot indices are pairwise distinct. -/
theorem memory_region_descriptor_invariants (o : MemOracle)
    (h1 : o.from_ranges_ok = true) (h2 : o.set_user_memory_region_ok = true) :
    ∃ gm evs, setup_memory o = (evs, .ok gm) ∧
      (∀ r ∈ registered_regions evs,
        (∃ reg ∈ gm.regions, reg.guest_base = r.guest_phys_addr ∧
          (reg.size : U64) = r.memory_size) ∧
        gm.get_host_address r.guest_phys_addr = some r.userspace_addr) ∧
      (registered_regions evs).Pairwise (fun a b => a.slot ≠ b.slot) := by
  obtain ⟨fr, ha, smr⟩ := o
  cases fr with
  | false => exact absurd h1 (by simp)
  | true =>
    cases smr with
    | false => exact absurd h2 (by simp)
    | true =>
      refine ⟨⟨[⟨0, mem_size, ha 0⟩]⟩,
        [.fromRanges [(0, mem_size)],
         .setUserMemoryRegion ⟨0, 0, mem_size, ha 0, 0⟩], rfl, ?_, ?_⟩
      · intro r hr
        have hr' : r = (⟨0, 0, mem_size, ha 0, 0⟩ : kvm_userspace_memory_region) := by
          simpa [registered_regions] using hr
        rw [hr']
        exact ⟨⟨⟨0, mem_size, ha 0⟩, by simp, rfl, rfl⟩, rfl⟩
      · simp [registered_regions]

/-- Witness for C9 at the concrete memory oracle. -/
theorem memory_region_descriptor_invariants_witness :
    ∃ gm evs, setup_memory memOracle0 = (evs, .ok gm) ∧
      (∀ r ∈ registered_regions evs,
        (∃ reg ∈ gm.regions, reg.guest_base = r.guest_phys_addr ∧
          (reg.size : U64) = r.memory_size) ∧
        gm.get_host_address r.guest_phys_addr = some r.userspace_addr) ∧
      (registered_regions evs).Pairwise (fun a b => a.slot ≠ b.slot) :=
  memory_region_descriptor_invariants memOracle0 rfl rfl

/-- World identical to `w0` except that the first resume reports an
`InternalError` exit reason before the guest halts. -/
def wInternal : World := { w0 with script := [.ok .InternalError, .ok .Hlt] }

/-- Counterexample to claim C5 at the concrete world `w0`: the loader call
reports a kernel loaded at 0x123456, `load_kernel` returns unit — it carries
no entry point — and the register state the vCPU initializer writes has its
instruction pointer equal to the orchestrator's hard-coded offset 0, not to
the loader's 0x123456. -/
theorem loader_entry_not_consumed :
    w0.elf_load_result = .ok ⟨⟨0x123456⟩⟩ ∧
    (load_kernel ⟨w0.file_open_ok, w0.elf_load_result⟩ mem0 (some ⟨0⟩)).2 = .ok () ∧
    Event.setRegs (setup_vcpu_regs zeroRegs ⟨0⟩) ∈ (main w0).1 ∧
    (setup_vcpu_regs zeroRegs ⟨0⟩).rip = 0 ∧ (0 : U64) ≠ 0x123456 :=
  ⟨rfl, rfl, by decide, rfl, by decide⟩

/-- Amended C5: `load_kernel` returns no entry point (its success value is
unit), and on every successful construction the vCPU initializer consumes
the orchestrator's fixed load offset `GuestAddress 0` as the address of the
first instruction, independent of the loader's result. -/
theorem kernel_offset_consumed_as_entry (w : World)
    (h : construction_ok w = true) :
    (load_kernel ⟨w.file_open_ok, w.elf_load_result⟩ ⟨[⟨0, mem_size, w.hostAlloc 0⟩]⟩
        (some ⟨0⟩)).2 = .ok () ∧
    Event.setRegs (setup_vcpu_regs w.initial_regs ⟨0⟩) ∈ (main w).1 ∧
    (setup_vcpu_regs w.initial_regs ⟨0⟩).rip = 0 := by
  refine ⟨?_, ?_, rfl⟩
  · obtain ⟨k, cv, fr, ha, smr, fo, el, cvc, ir, gr, sr, sc⟩ := w
    cases fo with
    | false => simp [construction_ok] at h
    | true =>
      cases el with
      | error u => simp [construction_ok] at h
      | ok res => rfl
  · rw [main_all_ok w h]
    simp

/-- Witness for amended C5 at the concrete world `w0`. -/
theorem kernel_offset_consumed_as_entry_witness :
    (load_kernel ⟨w0.file_open_ok, w0.elf_load_result⟩
        ⟨[⟨0, mem_size, w0.hostAlloc 0⟩]⟩ (some ⟨0⟩)).2 = .ok () ∧
    Event.setRegs (setup_vcpu_regs w0.initial_regs ⟨0⟩) ∈ (main w0).1 ∧
    (setup_vcpu_regs w0.initial_regs ⟨0⟩).rip = 0 :=
  kernel_offset_consumed_as_entry w0 (by decide)

/-- Counterexample to claim C6 at a concrete input: the loader output carries
no boot-parameter address (`load_kernel` succeeds with unit), yet the vCPU
initializer still writes the argument register — `rsi` is changed from 0 to
the fixed constant 0x7000 — so the placement is not conditional on the loader
having produced a boot-parameter address, and the value placed is a constant
rather than a loader-produced address. -/
theorem bootparam_rsi_unconditional :
    (load_kernel ⟨true, .ok ⟨⟨0x123456⟩⟩⟩ mem0 (some ⟨0⟩)).2 = .ok () ∧
    (setup_vcpu vcpuOracle0 ⟨0⟩).2 = .ok ⟨setup_vcpu_regs zeroRegs ⟨0⟩⟩ ∧
    zeroRegs.rsi = 0 ∧ (setup_vcpu_regs zeroRegs ⟨0⟩).rsi = 0x7000 ∧
    (0x7000 : U64) ≠ 0 :=
  ⟨rfl, rfl, rfl, rfl, by decide⟩

/-- Amended C6: whenever vCPU initialization succeeds it unconditionally
places the fixed constant `ZEROPG_START` (0x7000) into the argument register
`rsi`; the loader's output contains no boot-parameter address for it to
consume. -/
theorem rsi_always_zeropg (o : VcpuOracle) (off : GuestAddress)
    (hc : o.create_vcpu_ok = true) (hg : o.get_regs_ok = true)
    (hs : o.set_regs_ok = true) :
    ∃ evs v, setup_vcpu o off = (evs, .ok v) ∧ v.regs.rsi = ZEROPG_START := by
  obtain ⟨c, ir, g, s⟩ := o
  cases c with
  | false => exact absurd hc (by simp)
  | true =>
    cases g with
    | false => exact absurd hg (by simp)
    | true =>
      cases s with
      | false => exact absurd hs (by simp)
      | true => exact ⟨_, _, rfl, rfl⟩

/-- Witness for amended C6 at a concrete oracle and entry point 0. -/
theorem rsi_always_zeropg_witness :
    ∃ evs v, setup_vcpu vcpuOracle0 ⟨0⟩ = (evs, .ok v) ∧
      v.regs.rsi = ZEROPG_START :=
  rsi_always_zeropg vcpuOracle0 ⟨0⟩ rfl rfl rfl

/-- Counterexample to claim C7 at concrete inputs: the dispatcher's MMIO-read
arm leaves the read buffer exactly as it was — `[0, 0]` stays `[0, 0]` and
`[5, 5]` stays `[5, 5]` — so the buffer is neither filled with all-ones nor
with any fixed sentinel (two different inputs give two different outputs),
although the loop does return to running. -/
theorem mmio_read_buffer_unfilled :
    handle_mmio_read 0x1000 [0, 0] = [0, 0] ∧
    handle_mmio_read 0x1000 [5, 5] = [5, 5] ∧
    ([0, 0] : List Nat) ≠ [0xff, 0xff] ∧ ([5, 5] : List Nat) ≠ [0xff, 0xff] ∧
    ([0, 0] : List Nat) ≠ [5, 5] ∧
    (run_loop [.ok (.MmioRead 0x1000 [0, 0])]).2 = .running := by
  refine ⟨rfl, rfl, by decide, by decide, by decide, rfl⟩

/-- Amended C7: on an MMIO read or port-in exit the dispatcher runs the empty
handler body, leaving the read buffer unchanged rather than filling it; on an
MMIO write or port-out exit the write is discarded; in all four cases the
loop returns to running (it continues with the rest of the script), so a
guest probing unmapped MMIO does not crash the monitor. -/
theorem unclaimed_mmio_policy (addr : U64) (data : List Nat)
    (rest : List RunResult) :
    handle_mmio_read addr data = data ∧ handle_io_in addr data = data ∧
    run_loop (.ok (.MmioRead addr data) :: rest) =
      (.resume :: .dispatch (.MmioRead addr data) :: (run_loop rest).1,
       (run_loop rest).2) ∧
    run_loop (.ok (.MmioWrite addr data) :: rest) =
      (.resume :: .dispatch (.MmioWrite addr data) :: (run_loop rest).1,
       (run_loop rest).2) ∧
    run_loop (.ok (.IoIn addr data) :: rest) =
      (.resume :: .dispatch (.IoIn addr data) :: (run_loop rest).1,
       (run_loop rest).2) ∧
    run_loop (.ok (.IoOut addr data) :: rest) =
      (.resume :: .dispatch (.IoOut addr data) :: (run_loop rest).1,
       (run_loop rest).2) :=
  ⟨rfl, rfl, rfl, rfl, rfl, rfl⟩

/-- Counterexample to claim C8 at a concrete script: an `InternalError` exit
reason falls into the catch-all arm, so the loop issues a further resume call
after it (two resumes in total) and then terminates normally at the `Hlt`;
run against a full world, `main` returns the clean outcome with no
`VcpuRunError` surfaced. -/
theorem internal_error_not_fatal :
    run_loop [.ok .InternalError, .ok .Hlt] =
      ([.resume, .dispatch .InternalError, .resume, .dispatch .Hlt],
       .terminated) ∧
    resume_count (run_loop [.ok .InternalError, .ok .Hlt]).1 = 2 ∧
    (main wInternal).2 = .ok :=
  ⟨rfl, rfl, rfl⟩

/-- Amended C8: it is a resume call returning an ioctl-level error — not an
`InternalError` exit reason — that terminates the loop: the loop then issues
no further resume, the error is surfaced by `main` as an error outcome
distinguishable from a clean halt, while an `InternalError` exit reason is
handled by the catch-all arm and the loop continues resuming. -/
theorem resume_error_fatal (e : VmmError) (rest : List RunResult) :
    run_loop (.error e :: rest) = ([.resume], .failed e) ∧
    LoopOutcome.failed e ≠ .terminated ∧
    (main { w0 with script := .error e :: rest }).2 = .err e ∧
    MainOutcome.err e ≠ .ok ∧
    run_loop (.ok .InternalError :: rest) =
      (.resume :: .dispatch .InternalError :: (run_loop rest).1,
       (run_loop rest).2) :=
  ⟨rfl, by simp, rfl, by simp, rfl⟩

end Yavm
